import Mathlib

/-
Verification of the video-ingestion pipeline implemented in
src/video-audio-whisper.py and src/rough.py.

The pure helpers (format_timestamp, segments_to_timestamped_text) are
translated directly.  Effectful code is embedded by passing the external
collaborators explicitly (the object-storage client, the row-store insert,
the speech-to-text HTTP endpoint, the ffmpeg subprocess outcome and the
cv2.VideoCapture decoder are oracle parameters), and by returning the
side-effect log (paths uploaded, rows inserted, network payloads sent)
alongside the function result.  Python floats are modelled as rationals,
Python ints as Lean integers, byte strings as lists of naturals.
-/

/-- Python int() applied to a float: truncation toward zero, modelled on ℚ. -/
def pyTrunc (q : ℚ) : ℤ := if 0 ≤ q then ⌊q⌋ else -⌊-q⌋

/-- Python round() to an integer: round half to even, modelled on ℚ. -/
def pyRound (q : ℚ) : ℤ :=
  if q - ⌊q⌋ < 1/2 then ⌊q⌋
  else if 1/2 < q - ⌊q⌋ then ⌊q⌋ + 1
  else if ⌊q⌋ % 2 = 0 then ⌊q⌋ else ⌊q⌋ + 1

/-- Zero padding of a Python format spec such as 02 or 03, for the
nonnegative integers rendered by format_timestamp. -/
def padNum (w : ℕ) (n : ℤ) : String :=
  let s := toString n
  if s.length < w then String.mk (List.replicate (w - s.length) '0') ++ s else s

/-- The milliseconds value of format_timestamp:
millis = int((seconds - int(seconds)) * 1000). -/
def millisOf (seconds : ℚ) : ℤ := pyTrunc ((seconds - (pyTrunc seconds : ℚ)) * 1000)

/-- format_timestamp from src/video-audio-whisper.py lines 92-99 (identical in
src/rough.py lines 25-31).  Python // and % on ints are floored division and
modulus, hence Int.fdiv and Int.fmod. -/
def format_timestamp (seconds : ℚ) : String :=
  let millis := millisOf seconds
  let secondsInt := pyTrunc seconds
  let s := Int.fmod secondsInt 60
  let m := Int.fmod (Int.fdiv secondsInt 60) 60
  let h := Int.fdiv secondsInt 3600
  padNum 2 h ++ ":" ++ padNum 2 m ++ ":" ++ padNum 2 s ++ "," ++ padNum 3 millis

/-- One verbose_json transcription segment as consumed by
segments_to_timestamped_text: the fields seg["start"], seg["end"] (named stop
here since end is a Lean keyword) and seg["text"]. -/
structure PySegment where
  start : ℚ
  stop : ℚ
  text : String
deriving DecidableEq, Repr

/-- The line rendered for one segment inside segments_to_timestamped_text;
Python str.strip() on the text is modelled by String.trim. -/
def segLine (seg : PySegment) : String :=
  "[" ++ format_timestamp seg.start ++ " --> " ++ format_timestamp seg.stop
    ++ "] " ++ seg.text.trim

/-- segments_to_timestamped_text from src/video-audio-whisper.py lines 140-148
(identical in src/rough.py lines 67-74): renders one line per segment in input
order and joins the lines with a newline. -/
def segments_to_timestamped_text (segments : List PySegment) : String :=
  String.intercalate "\n" (segments.map segLine)

/-- The argument of download_video_from_url in src/rough.py: the route passes
either a string or a list of strings (the GHL form case). -/
inductive VideoUrlInput where
  | str (s : String)
  | list (l : List String)

/-- The body of download_video_from_url once the URL string is in hand:
reject a URL not starting with "http" before any network call, otherwise
perform the GET.  The oracle net models requests.get + raise_for_status +
.content; the second component of the result is the list of URLs actually
fetched over the network. -/
def download_from_string (net : String → Except String (List ℕ)) (u : String) :
    Except String (List ℕ) × List String :=
  if "http".toList.isPrefixOf u.toList then (net u, [u])
  else (Except.error "Invalid video URL", [])

/-- download_video_from_url from src/rough.py lines 34-44: a list input is
normalized to its first element (an empty list raises IndexError at
video_url[0]), then the string case is handled by download_from_string. -/
def download_video_from_url (net : String → Except String (List ℕ)) :
    VideoUrlInput → Except String (List ℕ) × List String
  | .str u => download_from_string net u
  | .list [] => (Except.error "IndexError: list index out of range", [])
  | .list (u :: _) => download_from_string net u

/-- Outcome of the ffmpeg subprocess call inside extract_audio_from_video:
raised covers subprocess.TimeoutExpired and every other exception of the try
block; ran gives the process return code, whether the output file exists, and
the bytes found in the output file. -/
inductive FfmpegRun where
  | raised
  | ran (returncode : ℤ) (outputExists : Bool) (output : List ℕ)

/-- extract_audio_from_video from src/video-audio-whisper.py lines 27-89.
A nonzero return code is only logged (the returncode argument is not
inspected); the decision is made purely on the output file: missing file or
size not exceeding 1000 bytes yields None, any exception (timeouts included)
yields None, otherwise the output bytes are returned. -/
def extract_audio_from_video (r : FfmpegRun) : Option (List ℕ) :=
  match r with
  | .raised => none
  | .ran _ outputExists output =>
      if outputExists then
        if 1000 < output.length then some output else none
      else none

/-- Response of the speech-to-text POST: its HTTP status code and the
segments of the parsed verbose_json body. -/
structure WhisperResponse where
  status : ℕ
  segments : List PySegment

/-- transcribe_video_verbose from src/video-audio-whisper.py lines 102-137:
raises on empty input, extracts audio, returns None without touching the
network when no audio came back (Python `if not audio_bytes` is also true for
empty bytes), otherwise posts the audio once and raises unless the status is
200.  The second component is the list of audio payloads sent over the
network. -/
def transcribe_video_verbose (api : List ℕ → WhisperResponse) (ffmpeg : FfmpegRun)
    (video_bytes : List ℕ) : Except String (Option (List PySegment)) × List (List ℕ) :=
  if video_bytes = [] then (Except.error "Uploaded video file is empty", [])
  else
    match extract_audio_from_video ffmpeg with
    | none => (Except.ok none, [])
    | some audio_bytes =>
        if audio_bytes = [] then (Except.ok none, [])
        else
          let resp := api audio_bytes
          if resp.status = 200 then (Except.ok (some resp.segments), [audio_bytes])
          else (Except.error "Transcription failed", [audio_bytes])

/-- What one cap.read() performed after a successful seek reports: the stream
position cap.get(cv2.CAP_PROP_POS_MSEC) and the cv2.imencode result for the
decoded frame (none when imencode reports failure). -/
structure ReadResult where
  posMsec : ℚ
  jpeg : Option (List ℕ)

/-- The cv2.VideoCapture interface as used by process_frames_and_upload:
whether the file opened, the reported CAP_PROP_FPS (0 when unavailable, the
only falsy float), the reported frame count already truncated by int(), and
the seek-then-read operation (readAtMsec p models cap.set(CAP_PROP_POS_MSEC,
p) followed by cap.read(); none models ret being False). -/
structure VideoCapture where
  isOpened : Bool
  reportedFps : ℚ
  totalFrames : ℤ
  readAtMsec : ℤ → Option ReadResult

/-- fps = cap.get(cv2.CAP_PROP_FPS) or 25: Python or replaces exactly the
value 0.0 by 25. -/
def nominalFps (reported : ℚ) : ℚ := if reported = 0 then 25 else reported

/-- duration = int(total_frames / fps) from process_frames_and_upload. -/
def videoDuration (cap : VideoCapture) : ℤ :=
  pyTrunc ((cap.totalFrames : ℚ) / nominalFps cap.reportedFps)

/-- The deterministic object-storage path of one frame:
f-string transcript_id + "/frame_" + sec + ".jpg". -/
def framePath (transcript_id : String) (sec : ℕ) : String :=
  transcript_id ++ "/frame_" ++ toString sec ++ ".jpg"

/-- One row of frames_metadata in src/video-audio-whisper.py lines 197-201:
frame_timestamp there is int(round(pos_msec / 1000)). -/
structure FrameMeta where
  transcript_id : String
  frame_timestamp : ℤ
  frame_storage_url : Option String
deriving DecidableEq, Repr

/-- Result of process_frames_and_upload together with its side-effect log:
the rows accumulated in frames_metadata and the storage paths passed to
supabase.storage.upload, in order. -/
structure FramesOutcome where
  metas : List FrameMeta
  uploadPaths : List String
deriving DecidableEq, Repr

/-- One iteration of the per-second loop of process_frames_and_upload
(src/video-audio-whisper.py lines 173-201): seek to sec * 1000 ms, read
(continue when ret is false), encode (continue when imencode fails), attempt
the upload at the deterministic path — the storage oracle returns the public
URL, or none when the upload raised — and build the metadata row.  Returns
the row together with the attempted upload path, or none when the second is
skipped. -/
def processSecond (storage : String → Option String) (cap : VideoCapture)
    (transcript_id : String) (sec : ℕ) : Option (FrameMeta × String) :=
  match cap.readAtMsec (sec * 1000) with
  | none => none
  | some r =>
      match r.jpeg with
      | none => none
      | some _ =>
          some (⟨transcript_id, pyRound (r.posMsec / 1000),
                 storage (framePath transcript_id sec)⟩,
                framePath transcript_id sec)

/-- The loop body of process_frames_and_upload as a fold step: a skipped
second leaves the accumulator unchanged, a processed one appends its row and
its upload path. -/
def stepFrames (storage : String → Option String) (cap : VideoCapture)
    (transcript_id : String) (acc : FramesOutcome) (sec : ℕ) : FramesOutcome :=
  match processSecond storage cap transcript_id sec with
  | none => acc
  | some (m, p) => ⟨acc.metas ++ [m], acc.uploadPaths ++ [p]⟩

/-- process_frames_and_upload from src/video-audio-whisper.py lines 151-210
(same structure in src/rough.py lines 77-128): raise RuntimeError when the
file does not open as a video (modelled as Except.error), otherwise run the
per-second loop for sec in range(int(total_frames / fps)).  Python range of a
negative length is empty, hence toNat. -/
def process_frames_and_upload (storage : String → Option String) (cap : VideoCapture)
    (transcript_id : String) : Except String FramesOutcome :=
  if cap.isOpened = false then Except.error "Failed to open video"
  else
    Except.ok ((List.range (videoDuration cap).toNat).foldl
      (stepFrames storage cap transcript_id) ⟨[], []⟩)

/-- The transcript row sent to supabase.table("transcript").insert. -/
structure TranscriptPayload where
  name : String
  phoneNumber : String
  transcript : String
deriving DecidableEq, Repr

/-- The HTTP response of the /upload route: an error status with message, or
the success body carrying the new transcript id and transcript text. -/
inductive UploadResponse where
  | failure (status : ℕ) (message : String)
  | success (transcript_id : String) (transcript : String)
deriving DecidableEq, Repr

/-- upload_file result together with the transcript rows actually sent to the
row store insert. -/
structure UploadOutcome where
  response : UploadResponse
  insertedTranscripts : List TranscriptPayload
deriving DecidableEq, Repr

/-- upload_file from src/video-audio-whisper.py lines 236-298, up to the
point where the response is returned (the background thread spawn carries no
data back into the response).  The transcription attempt is passed as its
outcome: Except.error e models an exception raised inside the try of the
transcription block (caught there and answered with a 500), Except.ok none
models transcribe_video_verbose returning None (the no-audio sentinel is
substituted), Except.ok (some segments) a verbose_json response.  The
insertTranscript oracle models the row-store insert: some id when
transcript_resp.data is nonempty, none otherwise. -/
def upload_file (insertTranscript : TranscriptPayload → Option String)
    (name phone : String) (file_bytes : List ℕ)
    (transcription : Except String (Option (List PySegment))) : UploadOutcome :=
  if name = "" ∨ phone = "" then ⟨.failure 400 "Name and phone are required", []⟩
  else if file_bytes = [] then ⟨.failure 400 "Uploaded video is empty", []⟩
  else
    match transcription with
    | .error e => ⟨.failure 500 ("Transcription failed: " ++ e), []⟩
    | .ok r =>
        let timestamped_transcript :=
          match r with
          | none => "[No audio found in video]"
          | some segments => segments_to_timestamped_text segments
        let payload : TranscriptPayload := ⟨name, phone, timestamped_transcript⟩
        match insertTranscript payload with
        | none => ⟨.failure 500 "Failed to save transcript", [payload]⟩
        | some transcript_id =>
            ⟨.success transcript_id timestamped_transcript, [payload]⟩

/-- The per-second loop as a fold equals the filterMap of its step over the
iterated seconds: skipped seconds contribute nothing, processed seconds
append their row and upload path in order. -/
theorem stepFrames_foldl (storage : String → Option String) (cap : VideoCapture)
    (tid : String) (l : List ℕ) : ∀ acc : FramesOutcome,
    l.foldl (stepFrames storage cap tid) acc =
      ⟨acc.metas ++ (l.filterMap (processSecond storage cap tid)).map Prod.fst,
       acc.uploadPaths ++ (l.filterMap (processSecond storage cap tid)).map Prod.snd⟩ := by
  induction l with
  | nil => intro acc; simp
  | cons sec l ih =>
      intro acc
      cases h : processSecond storage cap tid sec with
      | none =>
          simp only [List.foldl_cons, stepFrames, h, List.filterMap_cons]
          exact ih acc
      | some mp =>
          obtain ⟨m, p⟩ := mp
          simp only [List.foldl_cons, stepFrames, h, List.filterMap_cons,
            List.map_cons]
          rw [ih ⟨acc.metas ++ [m], acc.uploadPaths ++ [p]⟩]
          simp [List.append_assoc]

/-- On an opened video, process_frames_and_upload succeeds and its rows and
upload paths are exactly the per-second results over range(duration). -/
theorem process_frames_eq (storage : String → Option String) (cap : VideoCapture)
    (tid : String) (h : cap.isOpened = true) :
    process_frames_and_upload storage cap tid =
      Except.ok
        ⟨((List.range (videoDuration cap).toNat).filterMap
            (processSecond storage cap tid)).map Prod.fst,
         ((List.range (videoDuration cap).toNat).filterMap
            (processSecond storage cap tid)).map Prod.snd⟩ := by
  simp [process_frames_and_upload, h, stepFrames_foldl]

/-- C4: for every openable video the sampler computes
durationSeconds = floor(totalFrameCount / nominalFPS) with nominalFPS
defaulting to 25 when the decoder reports zero, iterates sec from 0 to
durationSeconds - 1 inclusive seeking to sec * 1000 milliseconds, skips every
second whose seek-and-read fails, and never fails the whole call. -/
theorem frame_sampler_loop_c4 (storage : String → Option String) (cap : VideoCapture)
    (tid : String) (hopen : cap.isOpened = true) (hframes : 0 ≤ cap.totalFrames)
    (hfps : 0 ≤ cap.reportedFps) :
    ∃ out : FramesOutcome,
      process_frames_and_upload storage cap tid = Except.ok out ∧
      videoDuration cap =
        ⌊(cap.totalFrames : ℚ) /
          (if cap.reportedFps = 0 then 25 else cap.reportedFps)⌋ ∧
      out.metas = ((List.range (videoDuration cap).toNat).filterMap
        (processSecond storage cap tid)).map Prod.fst ∧
      out.uploadPaths = ((List.range (videoDuration cap).toNat).filterMap
        (processSecond storage cap tid)).map Prod.snd ∧
      (∀ sec : ℕ, cap.readAtMsec (sec * 1000) = none →
        processSecond storage cap tid sec = none) := by
  refine ⟨_, process_frames_eq storage cap tid hopen, ?_, rfl, rfl, ?_⟩
  · have hq : 0 ≤ (cap.totalFrames : ℚ) /
        (if cap.reportedFps = 0 then 25 else cap.reportedFps) := by
      apply div_nonneg
      · exact_mod_cast hframes
      · split
        · norm_num
        · exact hfps
    simp only [videoDuration, pyTrunc, nominalFps, if_pos hq]
  · intro sec h
    simp [processSecond, h]

/-- A fixed openable 2-second test video: 50 reported frames at 25 fps, every
seek decoding and encoding successfully. -/
def capGood : VideoCapture := ⟨true, 25, 50, fun _ => some ⟨0, some [7]⟩⟩

/-- C4 witness: the loop characterization instantiated on capGood. -/
theorem frame_sampler_loop_c4_witness :
    capGood.isOpened = true ∧ 0 ≤ capGood.totalFrames ∧ 0 ≤ capGood.reportedFps ∧
    ∃ out : FramesOutcome,
      process_frames_and_upload (fun _ => some "u") capGood "t4" = Except.ok out ∧
      videoDuration capGood =
        ⌊(capGood.totalFrames : ℚ) /
          (if capGood.reportedFps = 0 then 25 else capGood.reportedFps)⌋ ∧
      out.metas = ((List.range (videoDuration capGood).toNat).filterMap
        (processSecond (fun _ => some "u") capGood "t4")).map Prod.fst ∧
      out.uploadPaths = ((List.range (videoDuration capGood).toNat).filterMap
        (processSecond (fun _ => some "u") capGood "t4")).map Prod.snd ∧
      (∀ sec : ℕ, capGood.readAtMsec (sec * 1000) = none →
        processSecond (fun _ => some "u") capGood "t4" sec = none) :=
  ⟨rfl, by decide, by decide,
    frame_sampler_loop_c4 (fun _ => some "u") capGood "t4" rfl (by decide) (by decide)⟩

/-- A closed but otherwise fully decodable capture: cv2 fails to open it. -/
def capClosed : VideoCapture := ⟨false, 25, 50, fun _ => some ⟨0, some [7]⟩⟩

/-- C8 counterexample: on a file that cannot be opened as a video,
process_frames_and_upload raises RuntimeError (modelled Except.error) and in
particular does not return the empty frame sequence. -/
theorem frame_sampler_closed_c8_counterexample :
    process_frames_and_upload (fun _ => some "u") capClosed "t" =
      Except.error "Failed to open video" ∧
    process_frames_and_upload (fun _ => some "u") capClosed "t" ≠
      Except.ok ⟨[], []⟩ := by
  refine ⟨rfl, ?_⟩
  intro h
  rw [show process_frames_and_upload (fun _ => some "u") capClosed "t" =
      Except.error "Failed to open video" from rfl] at h
  exact Except.noConfusion h

/-- C8 (amended): on every input that cannot be opened as a video the frame
sampler raises RuntimeError rather than returning an empty sequence. -/
theorem frame_sampler_closed_c8 (storage : String → Option String)
    (cap : VideoCapture) (tid : String) (h : cap.isOpened = false) :
    process_frames_and_upload storage cap tid =
      Except.error "Failed to open video" := by
  simp [process_frames_and_upload, h]

/-- C8 witness: the amended statement instantiated on capClosed. -/
theorem frame_sampler_closed_c8_witness :
    capClosed.isOpened = false ∧
    process_frames_and_upload (fun _ => none) capClosed "t8" =
      Except.error "Failed to open video" :=
  ⟨rfl, frame_sampler_closed_c8 (fun _ => none) capClosed "t8" rfl⟩

/-- A 0.4-second video: 10 reported frames at 25 fps, every position of which
decodes and encodes successfully. -/
def capShort : VideoCapture := ⟨true, 25, 10, fun _ => some ⟨0, some [7]⟩⟩

/-- C2 counterexample: sampling a 0-1 second video (here 0.4 s, with a frame
decodable at every position) produces zero frames, not exactly one frame at
timestamp 0: the per-second loop is empty and there is no fallback path. -/
theorem frame_sampler_fallback_c2_counterexample :
    process_frames_and_upload (fun _ => some "u") capShort "t2" =
      Except.ok ⟨[], []⟩ := by
  have hd : videoDuration capShort = 0 := by
    norm_num [videoDuration, capShort, nominalFps, pyTrunc]
  rw [process_frames_eq (fun _ => some "u") capShort "t2" rfl, hd]
  rfl

/-- C2 (amended): whenever every second of range(duration) is skipped — in
particular for a video shorter than one second (duration 0) or when all seeks
fail — process_frames_and_upload returns the empty outcome; the code has no
fallback single-frame path. -/
theorem frame_sampler_fallback_c2 (storage : String → Option String)
    (cap : VideoCapture) (tid : String) (hopen : cap.isOpened = true)
    (hnone : ∀ sec < (videoDuration cap).toNat,
      processSecond storage cap tid sec = none) :
    process_frames_and_upload storage cap tid = Except.ok ⟨[], []⟩ := by
  rw [process_frames_eq storage cap tid hopen]
  have hnil : (List.range (videoDuration cap).toNat).filterMap
      (processSecond storage cap tid) = [] := by
    rw [List.filterMap_eq_nil_iff]
    intro a ha
    exact hnone a (List.mem_range.mp ha)
  simp [hnil]

/-- A 5-second video (5 reported frames at 1 fps) on which every seek
fails. -/
def capNoRead : VideoCapture := ⟨true, 1, 5, fun _ => none⟩

/-- C2 witness: the amended statement instantiated on capNoRead. -/
theorem frame_sampler_fallback_c2_witness :
    capNoRead.isOpened = true ∧
    process_frames_and_upload (fun _ => none) capNoRead "t2w" =
      Except.ok ⟨[], []⟩ :=
  ⟨rfl, frame_sampler_fallback_c2 (fun _ => none) capNoRead "t2w" rfl
    (fun _ _ => rfl)⟩

/-- On a nonnegative rational, Python int() truncation is the floor. -/
theorem pyTrunc_nonneg (q : ℚ) (h : 0 ≤ q) : pyTrunc q = ⌊q⌋ := if_pos h

/-- Anatomy of a processed second: the upload was attempted at the
deterministic path of that second, the row carries the transcript id of the
call, and its storage URL is exactly what the storage oracle answered for
that path. -/
theorem processSecond_spec (storage : String → Option String) (cap : VideoCapture)
    (tid : String) (sec : ℕ) (m : FrameMeta) (p : String)
    (h : processSecond storage cap tid sec = some (m, p)) :
    p = framePath tid sec ∧ m.transcript_id = tid ∧
      m.frame_storage_url = storage p := by
  unfold processSecond at h
  split at h
  · exact Option.noConfusion h
  · split at h
    · exact Option.noConfusion h
    · simp only [Option.some.injEq, Prod.mk.injEq] at h
      obtain ⟨h1, h2⟩ := h
      subst h2
      subst h1
      exact ⟨rfl, rfl, rfl⟩

/-- The frame path starts with the transcript id followed by a slash. -/
theorem framePath_split (tid : String) (sec : ℕ) :
    framePath tid sec = tid ++ "/" ++ ("frame_" ++ toString sec ++ ".jpg") := by
  have l1 : ("/frame_" : String) = "/" ++ "frame_" := by decide
  unfold framePath
  simp only [String.append_assoc]
  rw [l1, String.append_assoc]

/-- C7: every frame is uploaded under the deterministic path
transcriptId/frame_sec.jpg, and when every object-storage put fails each
attempted frame still yields a metadata row with a null storage URL — one
row per attempted upload, none dropped. -/
theorem frame_upload_failure_c7 (cap : VideoCapture) (tid : String)
    (hopen : cap.isOpened = true) :
    ∃ out : FramesOutcome,
      process_frames_and_upload (fun _ => none) cap tid = Except.ok out ∧
      out.metas.length = out.uploadPaths.length ∧
      (∀ m ∈ out.metas, m.frame_storage_url = none) ∧
      (∀ p ∈ out.uploadPaths, ∃ sec : ℕ, p = framePath tid sec) := by
  refine ⟨_, process_frames_eq (fun _ => none) cap tid hopen, by simp, ?_, ?_⟩
  · intro m hm
    simp only [List.mem_map] at hm
    obtain ⟨⟨m', p⟩, hmem, hfst⟩ := hm
    rw [List.mem_filterMap] at hmem
    obtain ⟨sec, hsec, hps⟩ := hmem
    obtain ⟨hp, htid, hurl⟩ := processSecond_spec _ cap tid sec m' p hps
    cases hfst
    exact hurl
  · intro p hp
    simp only [List.mem_map] at hp
    obtain ⟨⟨m', p'⟩, hmem, hsnd⟩ := hp
    rw [List.mem_filterMap] at hmem
    obtain ⟨sec, hsec, hps⟩ := hmem
    obtain ⟨hp', htid, hurl⟩ := processSecond_spec _ cap tid sec m' p' hps
    exact ⟨sec, by rw [← hsnd]; exact hp'⟩

/-- A 3-second test video at 1 fps with every second decodable. -/
def capSeven : VideoCapture := ⟨true, 1, 3, fun _ => some ⟨0, some [1]⟩⟩

/-- C7 witness: the upload-failure behaviour instantiated on capSeven. -/
theorem frame_upload_failure_c7_witness :
    capSeven.isOpened = true ∧
    ∃ out : FramesOutcome,
      process_frames_and_upload (fun _ => none) capSeven "t7" = Except.ok out ∧
      out.metas.length = out.uploadPaths.length ∧
      (∀ m ∈ out.metas, m.frame_storage_url = none) ∧
      (∀ p ∈ out.uploadPaths, ∃ sec : ℕ, p = framePath "t7" sec) :=
  ⟨rfl, frame_upload_failure_c7 capSeven "t7" rfl⟩

/-- C9: every metadata row produced by one call of process_frames_and_upload
carries the transcript_id argument of that call, and every storage path it
uploads to is prefixed by that same transcript id. -/
theorem frames_scoped_c9 (storage : String → Option String) (cap : VideoCapture)
    (tid : String) (hopen : cap.isOpened = true) :
    ∃ out : FramesOutcome,
      process_frames_and_upload storage cap tid = Except.ok out ∧
      (∀ m ∈ out.metas, m.transcript_id = tid) ∧
      (∀ p ∈ out.uploadPaths, ∃ rest : String, p = tid ++ "/" ++ rest) := by
  refine ⟨_, process_frames_eq storage cap tid hopen, ?_, ?_⟩
  · intro m hm
    simp only [List.mem_map] at hm
    obtain ⟨⟨m', p⟩, hmem, hfst⟩ := hm
    rw [List.mem_filterMap] at hmem
    obtain ⟨sec, hsec, hps⟩ := hmem
    obtain ⟨hp, htid, hurl⟩ := processSecond_spec storage cap tid sec m' p hps
    cases hfst
    exact htid
  · intro p hp
    simp only [List.mem_map] at hp
    obtain ⟨⟨m', p'⟩, hmem, hsnd⟩ := hp
    rw [List.mem_filterMap] at hmem
    obtain ⟨sec, hsec, hps⟩ := hmem
    obtain ⟨hp', htid, hurl⟩ := processSecond_spec storage cap tid sec m' p' hps
    refine ⟨"frame_" ++ toString sec ++ ".jpg", ?_⟩
    rw [← hsnd, hp', framePath_split]

/-- A 2-second test video at 1 fps with every second decodable. -/
def capNine : VideoCapture := ⟨true, 1, 2, fun _ => some ⟨0, some [2]⟩⟩

/-- C9 witness: the scoping invariant instantiated on capNine. -/
theorem frames_scoped_c9_witness :
    capNine.isOpened = true ∧
    ∃ out : FramesOutcome,
      process_frames_and_upload (fun p => some p) capNine "t9" = Except.ok out ∧
      (∀ m ∈ out.metas, m.transcript_id = "t9") ∧
      (∀ p ∈ out.uploadPaths, ∃ rest : String, p = "t9" ++ "/" ++ rest) :=
  ⟨rfl, frames_scoped_c9 (fun p => some p) capNine "t9" rfl⟩

/-- C5: format_timestamp renders 3661.25 as 01:01:01,250 and 0 as
00:00:00,000, and on every nonnegative input the milliseconds value is the
fractional-second remainder times 1000 truncated to an integer (the floor
characterization below), not rounded. -/
theorem format_timestamp_c5 :
    format_timestamp 3661.25 = "01:01:01,250" ∧
    format_timestamp 0 = "00:00:00,000" ∧
    ∀ q : ℚ, 0 ≤ q →
      (millisOf q : ℚ) ≤ (q - (pyTrunc q : ℚ)) * 1000 ∧
      (q - (pyTrunc q : ℚ)) * 1000 < (millisOf q : ℚ) + 1 := by
  refine ⟨?_, ?_, ?_⟩
  · have h1 : pyTrunc (3661.25 : ℚ) = 3661 := by norm_num [pyTrunc]
    have h2 : millisOf (3661.25 : ℚ) = 250 := by
      rw [show millisOf (3661.25 : ℚ) =
          pyTrunc (((3661.25 : ℚ) - (pyTrunc (3661.25 : ℚ) : ℚ)) * 1000) from rfl,
        h1]
      norm_num [pyTrunc]
    rw [show format_timestamp 3661.25 =
        padNum 2 (Int.fdiv (pyTrunc 3661.25) 3600) ++ ":" ++
          padNum 2 (Int.fmod (Int.fdiv (pyTrunc 3661.25) 60) 60) ++ ":" ++
          padNum 2 (Int.fmod (pyTrunc 3661.25) 60) ++ "," ++
          padNum 3 (millisOf 3661.25) from rfl, h1, h2]
    decide
  · have h1 : pyTrunc (0 : ℚ) = 0 := by norm_num [pyTrunc]
    have h2 : millisOf (0 : ℚ) = 0 := by
      rw [show millisOf (0 : ℚ) =
          pyTrunc (((0 : ℚ) - (pyTrunc (0 : ℚ) : ℚ)) * 1000) from rfl, h1]
      norm_num [pyTrunc]
    rw [show format_timestamp 0 =
        padNum 2 (Int.fdiv (pyTrunc 0) 3600) ++ ":" ++
          padNum 2 (Int.fmod (Int.fdiv (pyTrunc 0) 60) 60) ++ ":" ++
          padNum 2 (Int.fmod (pyTrunc 0) 60) ++ "," ++
          padNum 3 (millisOf 0) from rfl, h1, h2]
    decide
  · intro q hq
    have hpt : pyTrunc q = ⌊q⌋ := pyTrunc_nonneg q hq
    have hfr : (0 : ℚ) ≤ (q - (pyTrunc q : ℚ)) * 1000 := by
      rw [hpt]
      have hf := Int.floor_le q
      have : (0 : ℚ) ≤ q - (⌊q⌋ : ℚ) := by linarith
      nlinarith
    have hm : millisOf q = ⌊(q - (pyTrunc q : ℚ)) * 1000⌋ := pyTrunc_nonneg _ hfr
    constructor
    · rw [hm]
      exact_mod_cast Int.floor_le ((q - (pyTrunc q : ℚ)) * 1000)
    · rw [hm]
      exact_mod_cast Int.lt_floor_add_one ((q - (pyTrunc q : ℚ)) * 1000)

/-- C5 witness: the truncation characterization applied at 3. -/
theorem format_timestamp_c5_witness :
    (0 : ℚ) ≤ 3 ∧
    (millisOf 3 : ℚ) ≤ ((3 : ℚ) - (pyTrunc 3 : ℚ)) * 1000 ∧
    ((3 : ℚ) - (pyTrunc 3 : ℚ)) * 1000 < (millisOf 3 : ℚ) + 1 :=
  ⟨by decide, format_timestamp_c5.2.2 3 (by decide)⟩

/-- C6: the formatter renders exactly one line per segment, in input order,
each line being segLine of the corresponding segment (the bracketed
start/end prefix followed by the trimmed text), joined by newlines; the
empty segment sequence renders as the empty string. -/
theorem transcript_formatter_c6 (segments : List PySegment) :
    (segments.map segLine).length = segments.length ∧
    (∀ (i : ℕ) (h1 : i < (segments.map segLine).length) (h2 : i < segments.length),
      (segments.map segLine).get ⟨i, h1⟩ = segLine (segments.get ⟨i, h2⟩)) ∧
    segments_to_timestamped_text segments =
      String.intercalate "\n" (segments.map segLine) ∧
    segments_to_timestamped_text [] = "" := by
  refine ⟨by simp, ?_, rfl, rfl⟩
  intro i h1 h2
  simp [List.get_eq_getElem, List.getElem_map]

/-- Two concrete segments, the first with whitespace to trim. -/
def segsW : List PySegment := [⟨0, 1, "  hi  "⟩, ⟨1, 2, "yo"⟩]

/-- C6 witness: the formatter shape instantiated on segsW at index 1. -/
theorem transcript_formatter_c6_witness :
    (segsW.map segLine).length = segsW.length ∧
    (segsW.map segLine).get ⟨1, by decide⟩ = segLine (segsW.get ⟨1, by decide⟩) ∧
    segments_to_timestamped_text [] = "" :=
  ⟨(transcript_formatter_c6 segsW).1,
   (transcript_formatter_c6 segsW).2.1 1 (by decide) (by decide),
   (transcript_formatter_c6 segsW).2.2.2⟩

/-- C1 counterexample: with a transcription attempt that raises (modelled as
Except.error "boom") and a row store accepting any insert, upload_file
answers 500 and inserts no transcript row — the transcription error aborts
the item instead of degrading to a sentinel; and on a None transcription
result the sentinel actually inserted is "[No audio found in video]", not
"[No audio found]". -/
theorem upload_sentinel_c1_counterexample :
    upload_file (fun _ => some "id1") "alice" "123" [1] (Except.error "boom") =
      ⟨.failure 500 "Transcription failed: boom", []⟩ ∧
    (upload_file (fun _ => some "id1") "alice" "123" [1]
        (Except.ok none)).insertedTranscripts =
      [⟨"alice", "123", "[No audio found in video]"⟩] ∧
    "[No audio found in video]" ≠ "[No audio found]" :=
  ⟨rfl, rfl, by decide⟩

/-- C1 (amended): on a None transcription result upload_file still inserts a
transcript row whose text is the sentinel "[No audio found in video]" and the
item proceeds (success response once the insert succeeds); a transcription
attempt that raises an error does not degrade: the route answers 500 with no
transcript row inserted. -/
theorem upload_sentinel_c1 (insertTranscript : TranscriptPayload → Option String)
    (name phone : String) (file_bytes : List ℕ)
    (hn : name ≠ "") (hp : phone ≠ "") (hb : file_bytes ≠ []) :
    (∀ e : String,
      upload_file insertTranscript name phone file_bytes (Except.error e) =
        ⟨.failure 500 ("Transcription failed: " ++ e), []⟩) ∧
    (upload_file insertTranscript name phone file_bytes
        (Except.ok none)).insertedTranscripts =
      [⟨name, phone, "[No audio found in video]"⟩] ∧
    (∀ tid : String,
      insertTranscript ⟨name, phone, "[No audio found in video]"⟩ = some tid →
      (upload_file insertTranscript name phone file_bytes
          (Except.ok none)).response =
        .success tid "[No audio found in video]") := by
  refine ⟨?_, ?_, ?_⟩
  · intro e
    simp [upload_file, hn, hp, hb]
  · simp only [upload_file, hn, hp, hb]
    simp
    cases hins : insertTranscript ⟨name, phone, "[No audio found in video]"⟩ with
    | none => simp [hins]
    | some tid => simp [hins]
  · intro tid htid
    simp [upload_file, hn, hp, hb, htid]

/-- C1 witness: the amended behaviour instantiated on concrete inputs. -/
theorem upload_sentinel_c1_witness :
    ("a" : String) ≠ "" ∧ ("1" : String) ≠ "" ∧ ([2] : List ℕ) ≠ [] ∧
    ((∀ e : String,
      upload_file (fun _ => some "id7") "a" "1" [2] (Except.error e) =
        ⟨.failure 500 ("Transcription failed: " ++ e), []⟩) ∧
    (upload_file (fun _ => some "id7") "a" "1" [2]
        (Except.ok none)).insertedTranscripts =
      [⟨"a", "1", "[No audio found in video]"⟩] ∧
    (∀ tid : String,
      (fun _ => some "id7") (⟨"a", "1", "[No audio found in video]"⟩ :
        TranscriptPayload) = some tid →
      (upload_file (fun _ => some "id7") "a" "1" [2]
          (Except.ok none)).response =
        .success tid "[No audio found in video]")) :=
  ⟨by decide, by decide, by decide,
    upload_sentinel_c1 (fun _ => some "id7") "a" "1" [2]
      (by decide) (by decide) (by decide)⟩

/-- C3 counterexample: an ffmpeg run that reported failure (return code 1)
but left 1001 bytes of output does not yield None — the return code is never
inspected — refuting "the external utility fails implies extraction returns
None". -/
theorem audio_extraction_none_c3_counterexample :
    extract_audio_from_video (.ran 1 true (List.replicate 1001 7)) =
      some (List.replicate 1001 7) := by
  norm_num [extract_audio_from_video]

/-- C3 (amended): extraction returns None (never an error) when the ffmpeg
run raises — timeouts included —, when the output file is missing, and when
the produced output is at most 1000 bytes, all degrading identically to "no
audio track"; and whenever extraction yields None, transcribe_video_verbose
on a nonempty video returns None immediately with no network call.  A
nonzero exit status alone does not force None (see the counterexample). -/
theorem audio_extraction_none_c3 (api : List ℕ → WhisperResponse)
    (video_bytes : List ℕ) (f : FfmpegRun) (hv : video_bytes ≠ []) :
    extract_audio_from_video FfmpegRun.raised = none ∧
    (∀ (rc : ℤ) (ex : Bool) (out : List ℕ), out.length ≤ 1000 →
      extract_audio_from_video (.ran rc ex out) = none) ∧
    (∀ (rc : ℤ) (out : List ℕ),
      extract_audio_from_video (.ran rc false out) = none) ∧
    (extract_audio_from_video f = none →
      transcribe_video_verbose api f video_bytes = (Except.ok none, [])) := by
  refine ⟨rfl, ?_, ?_, ?_⟩
  · intro rc ex out hlen
    cases ex
    · rfl
    · simp [extract_audio_from_video, Nat.not_lt.mpr hlen]
  · intro rc out
    rfl
  · intro hnone
    simp [transcribe_video_verbose, hv, hnone]

/-- C3 witness: the no-audio degradation instantiated on a raised run. -/
theorem audio_extraction_none_c3_witness :
    ([3] : List ℕ) ≠ [] ∧
    (extract_audio_from_video FfmpegRun.raised = none ∧
    (∀ (rc : ℤ) (ex : Bool) (out : List ℕ), out.length ≤ 1000 →
      extract_audio_from_video (.ran rc ex out) = none) ∧
    (∀ (rc : ℤ) (out : List ℕ),
      extract_audio_from_video (.ran rc false out) = none) ∧
    (extract_audio_from_video FfmpegRun.raised = none →
      transcribe_video_verbose (fun _ => ⟨200, []⟩) FfmpegRun.raised [3] =
        (Except.ok none, []))) :=
  ⟨by decide,
    audio_extraction_none_c3 (fun _ => ⟨200, []⟩) [3] FfmpegRun.raised (by decide)⟩

/-- C10: download_video_from_url normalizes a list input to its first
element; a string not starting with "http" is rejected with ValueError before
any network call; a string starting with "http" — any scheme sharing that
prefix — proceeds to exactly one network GET of that URL. -/
theorem download_url_c10 (net : String → Except String (List ℕ))
    (u : String) (rest : List String) :
    download_video_from_url net (.list (u :: rest)) =
      download_video_from_url net (.str u) ∧
    ("http".toList.isPrefixOf u.toList = false →
      download_video_from_url net (.str u) =
        (Except.error "Invalid video URL", [])) ∧
    ("http".toList.isPrefixOf u.toList = true →
      download_video_from_url net (.str u) = (net u, [u])) := by
  refine ⟨rfl, ?_, ?_⟩
  · intro h
    simp only [download_video_from_url, download_from_string]
    rw [if_neg (by rw [h]; exact Bool.false_ne_true)]
  · intro h
    simp only [download_video_from_url, download_from_string]
    rw [if_pos h]

/-- C10 witness: the scheme check instantiated on a rejected ftp URL and an
accepted URL whose scheme merely shares the http prefix. -/
theorem download_url_c10_witness :
    ("http".toList.isPrefixOf "ftp://x".toList = false ∧
      download_video_from_url (fun _ => Except.ok []) (.str "ftp://x") =
        (Except.error "Invalid video URL", [])) ∧
    ("http".toList.isPrefixOf "httpz://y".toList = true ∧
      download_video_from_url (fun _ => Except.ok []) (.str "httpz://y") =
        (Except.ok [], ["httpz://y"])) :=
  ⟨⟨by decide,
    (download_url_c10 (fun _ => Except.ok []) "ftp://x" []).2.1 (by decide)⟩,
   ⟨by decide,
    (download_url_c10 (fun _ => Except.ok []) "httpz://y" []).2.2 (by decide)⟩⟩
